import Mathlib

/-!
Shallow embedding of `src/Couch/connection.h` (cppcouch): the session
connection's database-lifecycle operations, authentication state machine,
server-metadata parsing and cluster/node upgrade dispatch, together with
theorems settling the specification claims about them.

The transport (`communication.h`), the JSON library and the URL-encoding
utility are external collaborators; each operation is embedded as a pure
function of the transport responses it consumes, returning an
`Except couch_error` result paired with the trace of observable events
(requests issued, database references constructed, auth-mode writes).
-/

namespace Couch

/-- JSON values as exposed by the external JSON library (a black-box
collaborator): null, booleans, numbers, strings, arrays and objects. -/
inductive Json where
  | null : Json
  | bool (b : Bool) : Json
  | num (n : Int) : Json
  | str (s : String) : Json
  | arr (items : List Json) : Json
  | obj (fields : List (String × Json)) : Json

/-- Embedding of `json::value::is_object()`. -/
def Json.is_object : Json → Bool
  | Json.obj _ => true
  | _ => false

/-- Embedding of `json::value::is_array()`. -/
def Json.is_array : Json → Bool
  | Json.arr _ => true
  | _ => false

/-- Embedding of `json::value::get_string()`: the string payload, or the
empty string for a non-string value. -/
def Json.get_string : Json → String
  | Json.str s => s
  | _ => ""

/-- Embedding of `json::value::get_bool()`: the boolean payload, or `false`
for a value that is not literally a boolean. -/
def Json.get_bool : Json → Bool
  | Json.bool b => b
  | _ => false

/-- Embedding of `json::value::get_array()`: the element list, or the empty
list for a non-array value. -/
def Json.get_array : Json → List Json
  | Json.arr items => items
  | _ => []

/-- Embedding of `json::value::operator[](key)` on a (possibly non-) object:
the value of the first field with the given key, `null` when absent. -/
def Json.member : Json → String → Json
  | Json.obj fields, k =>
      match fields.find? (fun f => f.1 = k) with
      | some f => f.2
      | none => Json.null
  | _, _ => Json.null

/-- Embedding of `json::value::is_member(key)`. -/
def Json.is_member : Json → String → Bool
  | Json.obj fields, k => fields.any (fun f => f.1 = k)
  | _, _ => false

/-- Error kinds of `couchdb::error` used by the connection, plus a
transport-level kind standing for the kinds the communication collaborator
raises on network failure (spec section 7: they pass through unmodified). -/
inductive error_kind where
  | bad_response
  | database_unavailable
  | database_not_creatable
  | database_not_deletable
  | content_not_found
  | forbidden
  | transport_error
deriving DecidableEq, Repr

/-- Embedding of `couchdb::error`: a kind plus an optional reason string. -/
structure couch_error where
  kind : error_kind
  reason : Option String := none
deriving DecidableEq, Repr

/-- Authentication modes (`couchdb::auth_type`). -/
inductive auth_type where
  | auth_none
  | auth_basic
  | auth_cookie
deriving DecidableEq, Repr

/-- Observable events of a connection operation: a JSON-body request
(`communication::get_data`), a raw request (`communication::get_raw_data`),
the construction of a database reference (`database_type(comm, name)`), and
a write of the transport's auth mode (`communication::set_auth_type`). -/
inductive event where
  | request (path method : String) (serverRoot : Bool)
  | rawRequest (path method : String)
  | constructDbRef (name : String)
  | setAuthMode (t : auth_type)
deriving DecidableEq, Repr

/-- Embedding of the `s.find(p) == 0` starts-with idiom of `std::string`,
phrased over the character list so that it evaluates by kernel reduction. -/
def strStartsWith (s p : String) : Bool :=
  p.toList.isPrefixOf s.toList

/-- Embedding of `s.erase(0, n)` on `std::string`: drop the first `n`
characters. -/
def strDropChars (s : String) (n : Nat) : String :=
  String.mk (s.toList.drop n)

/-- Hexadecimal digit character for percent-encoding. -/
def hexDigit (n : Nat) : Char :=
  if n < 10 then Char.ofNat (48 + n) else Char.ofNat (55 + n)

/-- Characters left untouched by percent-encoding. -/
def isUnreserved (c : Char) : Bool :=
  c.isAlphanum || c = '-' || c = '_' || c = '.' || c = '~'

/-- Percent-encoding of a single character. -/
def percentEncodeChar (c : Char) : List Char :=
  if isUnreserved c then [c]
  else
    let n := c.toNat % 256
    ['%', hexDigit (n / 16), hexDigit (n % 16)]

/-- Modelled from the spec: `url_encode` from `shared.h` (not under `src/`);
the spec treats URL-encoding as an assumed-correct black box, modelled here
as standard percent-encoding of characters outside the unreserved set. -/
def url_encode (s : String) : String :=
  String.mk (s.toList.foldr (fun c acc => percentEncodeChar c ++ acc) [])

/-- Decidable equality of operation results. -/
instance instDecEqExcept {ε α : Type} [DecidableEq ε] [DecidableEq α] :
    DecidableEq (Except ε α) := fun x y =>
  match x, y with
  | Except.error e1, Except.error e2 =>
      if h : e1 = e2 then Decidable.isTrue (h ▸ rfl)
      else Decidable.isFalse (fun hc => h (by injection hc))
  | Except.error _, Except.ok _ => Decidable.isFalse (fun hc => by injection hc)
  | Except.ok _, Except.error _ => Decidable.isFalse (fun hc => by injection hc)
  | Except.ok a1, Except.ok a2 =>
      if h : a1 = a2 then Decidable.isTrue (h ▸ rfl)
      else Decidable.isFalse (fun hc => h (by injection hc))

/-- Result-with-trace of a connection operation. -/
abbrev OpResult (α : Type) := Except couch_error α × List event

/-- Embedding of `connection::get_db`: issue a HEAD on the encoded database
path (its classified failure, if any, propagates), then construct and return
the database reference. `headResult` is the outcome of
`comm->get_raw_data("/" + url_encode(db), "HEAD")`. -/
def get_db (db : String) (headResult : Except couch_error Unit) : OpResult String :=
  match headResult with
  | Except.error e => (Except.error e, [event.rawRequest ("/" ++ url_encode db) "HEAD"])
  | Except.ok _ =>
      (Except.ok db,
       [event.rawRequest ("/" ++ url_encode db) "HEAD", event.constructDbRef db])

/-- Embedding of `connection::db_exists`: constructs `database_type(comm, db)`
first, then calls `exists()` on it. The body of `database::exists` is
modelled from the spec (`database.h` is not under `src/`): it issues the
HEAD existence check and yields true on success, false on
`content_not_found`, propagating any other error. -/
def db_exists (db : String) (headResult : Except couch_error Unit) : OpResult Bool :=
  let trace := [event.constructDbRef db, event.rawRequest ("/" ++ url_encode db) "HEAD"]
  match headResult with
  | Except.ok _ => (Except.ok true, trace)
  | Except.error e =>
      if e.kind = error_kind.content_not_found then (Except.ok false, trace)
      else (Except.error e, trace)

/-- Embedding of `connection::create_db`: PUT on the encoded database path;
a non-object response raises `database_unavailable`; an `error` member
raises `database_not_creatable` carrying the response's `reason` string; a
non-true `ok` member raises `database_not_creatable` without a reason;
otherwise the database reference is constructed and returned. `resp` is the
outcome of `comm->get_data("/" + url_encode(db), "PUT")`. -/
def create_db (db : String) (resp : Except couch_error Json) : OpResult String :=
  let trace := [event.request ("/" ++ url_encode db) "PUT" false]
  match resp with
  | Except.error e => (Except.error e, trace)
  | Except.ok response =>
      if ¬ response.is_object then
        (Except.error ⟨error_kind.database_unavailable, none⟩, trace)
      else if response.is_member "error" then
        (Except.error ⟨error_kind.database_not_creatable,
                       some (response.member "reason").get_string⟩, trace)
      else if ¬ (response.member "ok").get_bool then
        (Except.error ⟨error_kind.database_not_creatable, none⟩, trace)
      else
        (Except.ok db, trace ++ [event.constructDbRef db])

/-- Embedding of `connection::remove_db`: DELETE on the encoded database
path; a non-object response raises `database_not_deletable`; an `error`
member raises `database_not_deletable` carrying the `reason` string; a
non-true `ok` raises `database_not_deletable` without a reason. -/
def remove_db (db : String) (resp : Except couch_error Json) : OpResult Unit :=
  let trace := [event.request ("/" ++ url_encode db) "DELETE" false]
  match resp with
  | Except.error e => (Except.error e, trace)
  | Except.ok response =>
      if ¬ response.is_object then
        (Except.error ⟨error_kind.database_not_deletable, none⟩, trace)
      else if response.is_member "error" then
        (Except.error ⟨error_kind.database_not_deletable,
                       some (response.member "reason").get_string⟩, trace)
      else if ¬ (response.member "ok").get_bool then
        (Except.error ⟨error_kind.database_not_deletable, none⟩, trace)
      else
        (Except.ok (), trace)

/-- Embedding of `connection::ensure_db_exists`: try `get_db`; on an error
whose kind is not `content_not_found` rethrow; otherwise fall through to
`create_db`. -/
def ensure_db_exists (db : String) (headResult : Except couch_error Unit)
    (createResp : Except couch_error Json) : OpResult String :=
  match get_db db headResult with
  | (Except.ok d, trace) => (Except.ok d, trace)
  | (Except.error e, trace) =>
      if e.kind ≠ error_kind.content_not_found then (Except.error e, trace)
      else
        let r := create_db db createResp
        (r.1, trace ++ r.2)

/-- Embedding of `connection::ensure_db_is_deleted`: try `remove_db`; on an
error whose kind is neither `content_not_found` nor `database_not_deletable`
rethrow; otherwise swallow the error and return normally. -/
def ensure_db_is_deleted (db : String) (resp : Except couch_error Json) : OpResult Unit :=
  match remove_db db resp with
  | (Except.ok _, trace) => (Except.ok (), trace)
  | (Except.error e, trace) =>
      if e.kind ≠ error_kind.content_not_found ∧ e.kind ≠ error_kind.database_not_deletable then
        (Except.error e, trace)
      else
        (Except.ok (), trace)

/-- Embedding of `connection::logout`: when the current auth mode is
`auth_cookie`, issue DELETE `/_session` (its failure propagates); otherwise
a no-op. -/
def logout (mode : auth_type) (deleteResp : Except couch_error Json) : OpResult Unit :=
  match mode with
  | auth_type.auth_cookie =>
      (deleteResp.map (fun _ => ()), [event.request "/_session" "DELETE" false])
  | _ => (Except.ok (), [])

/-- Embedding of `connection::get_login_info`: GET `/_session` when the
mode is `auth_cookie`, otherwise return a null value without a request. -/
def get_login_info (mode : auth_type) (getResp : Except couch_error Json) : OpResult Json :=
  match mode with
  | auth_type.auth_cookie => (getResp, [event.request "/_session" "GET" false])
  | _ => (Except.ok Json.null, [])

/-- Transport responses consumed by one `login` run: the response to the
POST `/_session` credential negotiation (performed under `auth_basic`), and
the response to the DELETE `/_session` of the internal cleanup logout. -/
structure login_env where
  postResp : Except couch_error Json
  logoutResp : Except couch_error Json

/-- Embedding of `connection::login`. `t` is the auth mode read from the
transport at entry. For `auth_none` the call is a no-op. Otherwise the mode
is forced to `auth_basic`, credentials are POSTed to `/_session` (a failure
propagates as an exception, leaving the mode as last set), and when the
original mode was `auth_basic` the mode is set to `auth_cookie` and
`logout()` is invoked to discard the cookie: on a logout error the mode is
restored to `t` before the error is re-raised. Finally the mode is restored
to `t`. Returns the result, the final auth mode, and the event trace. -/
def login (t : auth_type) (env : login_env) :
    Except couch_error Unit × auth_type × List event :=
  match t with
  | auth_type.auth_none => (Except.ok (), t, [])
  | _ =>
    let ev0 := [event.setAuthMode auth_type.auth_basic,
                event.request "/_session" "POST" false]
    match env.postResp with
    | Except.error e => (Except.error e, auth_type.auth_basic, ev0)
    | Except.ok _ =>
        if t = auth_type.auth_basic then
          let lr := logout auth_type.auth_cookie env.logoutResp
          let ev1 := ev0 ++ [event.setAuthMode auth_type.auth_cookie] ++ lr.2
          match lr.1 with
          | Except.error e => (Except.error e, t, ev1 ++ [event.setAuthMode t])
          | Except.ok _ => (Except.ok (), t, ev1 ++ [event.setAuthMode t])
        else
          (Except.ok (), t, ev0 ++ [event.setAuthMode t])

/-- Characters skipped by `std::istream` formatted extraction (default
classic-locale whitespace). -/
def isStreamSpace (c : Char) : Bool :=
  c = ' ' || c = '\t' || c = '\n' || c = '\x0b' || c = '\x0c' || c = '\r'

/-- Decimal value of a digit list. -/
def digitsToNat (ds : List Char) : Nat :=
  ds.foldl (fun acc c => acc * 10 + (c.toNat - 48)) 0

/-- Embedding of `std::istringstream >> int`: skip leading whitespace, read
an optional sign and then decimal digits; `none` when no digit follows (the
stream enters the failed state). -/
def parseStreamInt (s : String) : Option Int :=
  let cs := s.toList.dropWhile isStreamSpace
  match cs with
  | '-' :: rest =>
      let ds := rest.takeWhile Char.isDigit
      if ds.isEmpty then none else some (-(digitsToNat ds : Int))
  | '+' :: rest =>
      let ds := rest.takeWhile Char.isDigit
      if ds.isEmpty then none else some (digitsToNat ds : Int)
  | rest =>
      let ds := rest.takeWhile Char.isDigit
      if ds.isEmpty then none else some (digitsToNat ds : Int)

/-- Embedding of the copy-and-erase step of `get_couchdb_info`: when the
version string holds a `'.'`, erase from the first `'.'` to the end. -/
def eraseFromDot (s : String) : String :=
  String.mk (s.toList.takeWhile (fun c => c ≠ '.'))

/-- Connection state relevant to server metadata: the `couchDBVersion` and
`couchdb_major` fields of `connection`. -/
structure conn_state where
  couchDBVersion : String
  couchdb_major : Int
deriving DecidableEq, Repr

/-- Embedding of `connection::get_couchdb_info`: unconditionally issue a
root GET (server-root query); a non-object response raises `bad_response`;
otherwise store the `version` string, erase everything from the first `'.'`
and parse the remainder as an int, storing `-1` on parse failure. `resp` is
the outcome of `comm->get_data("", "GET", "", true)`. -/
def get_couchdb_info (s : conn_state) (resp : Except couch_error Json) :
    Except couch_error Unit × conn_state × List event :=
  let trace := [event.request "" "GET" true]
  match resp with
  | Except.error e => (Except.error e, s, trace)
  | Except.ok response =>
      if ¬ response.is_object then
        (Except.error ⟨error_kind.bad_response, none⟩, s, trace)
      else
        let v := (response.member "version").get_string
        let major :=
          match parseStreamInt (eraseFromDot v) with
          | some n => n
          | none => -1
        (Except.ok (), ⟨v, major⟩, trace)

/-- Embedding of `connection::get_couchdb_version`: run `get_couchdb_info`
and return the stored version string. -/
def get_couchdb_version (s : conn_state) (resp : Except couch_error Json) :
    Except couch_error String × conn_state × List event :=
  match get_couchdb_info s resp with
  | (Except.error e, s2, trace) => (Except.error e, s2, trace)
  | (Except.ok _, s2, trace) => (Except.ok s2.couchDBVersion, s2, trace)

/-- Embedding of `connection::get_major_version`: run `get_couchdb_info`
and return the stored major version. -/
def get_major_version (s : conn_state) (resp : Except couch_error Json) :
    Except couch_error Int × conn_state × List event :=
  match get_couchdb_info s resp with
  | (Except.error e, s2, trace) => (Except.error e, s2, trace)
  | (Except.ok _, s2, trace) => (Except.ok s2.couchdb_major, s2, trace)

/-- Embedding of `connection::get_supports_clusters`: true iff the fetched
major version is at least 2 (a fetch failure propagates). -/
def get_supports_clusters (s : conn_state) (resp : Except couch_error Json) :
    Except couch_error Bool × conn_state × List event :=
  match get_major_version s resp with
  | (Except.error e, s2, trace) => (Except.error e, s2, trace)
  | (Except.ok m, s2, trace) => (Except.ok (decide (2 ≤ m)), s2, trace)

/-- Modelled from the spec: a node connection handle (`node_connection` is
not under `src/`); it carries the node-local port, the node name and the
shared transport, of which only port and name are identifying data. -/
structure node_connection where
  node_local_port : Nat
  node_name : String
deriving DecidableEq, Repr

/-- Modelled from the spec: a cluster connection handle
(`cluster_connection` is not under `src/`); it carries the node-local port
and, as an ordered collection, the node connections of the cluster. -/
structure cluster_connection where
  node_local_port : Nat
  nodes : List node_connection
deriving DecidableEq, Repr

/-- Embedding of `connection::upgrade_to_cluster_connection`: a populated
cluster-connection handle when clustering is supported, a null handle
otherwise. `clusterNodes` stands for the node collection the constructed
`cluster_connection(port, comm)` would discover. -/
def upgrade_to_cluster_connection (clusterNodes : List node_connection)
    (port : Nat) (s : conn_state) (resp : Except couch_error Json) :
    Except couch_error (Option cluster_connection) × conn_state × List event :=
  match get_supports_clusters s resp with
  | (Except.error e, s2, trace) => (Except.error e, s2, trace)
  | (Except.ok true, s2, trace) => (Except.ok (some ⟨port, clusterNodes⟩), s2, trace)
  | (Except.ok false, s2, trace) => (Except.ok none, s2, trace)

/-- Embedding of `connection::upgrade_to_node_connection`: when clustering
is unsupported, a synthetic node connection with an empty node name;
otherwise the first node of `cluster_connection(port, comm)` in its defined
ordering (`*begin()`), absent when the cluster exposes no node. -/
def upgrade_to_node_connection (clusterNodes : List node_connection)
    (port : Nat) (s : conn_state) (resp : Except couch_error Json) :
    Except couch_error (Option node_connection) × conn_state × List event :=
  match get_supports_clusters s resp with
  | (Except.error e, s2, trace) => (Except.error e, s2, trace)
  | (Except.ok false, s2, trace) => (Except.ok (some ⟨port, ""⟩), s2, trace)
  | (Except.ok true, s2, trace) =>
      (Except.ok (cluster_connection.mk port clusterNodes).nodes.head?, s2, trace)

/-- Filter of `list_db_names`/`list_dbs`: keep an entry iff its string
neither begins with `'_'` nor begins with the literal `"shards/"`
(`find('_') != 0 && find("shards/") != 0`). -/
def dbNameKept (s : String) : Bool :=
  ¬ strStartsWith s "_" && ¬ strStartsWith s "shards/"

/-- Embedding of `connection::list_db_names`: GET `/_all_dbs`; a non-array
response raises `database_unavailable`; otherwise return, in order, the
string of every entry that neither begins with `'_'` nor with `"shards/"`. -/
def list_db_names (resp : Except couch_error Json) : OpResult (List String) :=
  let trace := [event.request "/_all_dbs" "GET" false]
  match resp with
  | Except.error e => (Except.error e, trace)
  | Except.ok response =>
      if ¬ response.is_array then
        (Except.error ⟨error_kind.database_unavailable, none⟩, trace)
      else
        (Except.ok ((response.get_array.map Json.get_string).filter dbNameKept), trace)

/-- Embedding of `connection::list_all_db_names`: GET `/_all_dbs`; a
non-array response raises `database_unavailable`; otherwise return the
string of every entry, in order. -/
def list_all_db_names (resp : Except couch_error Json) : OpResult (List String) :=
  let trace := [event.request "/_all_dbs" "GET" false]
  match resp with
  | Except.error e => (Except.error e, trace)
  | Except.ok response =>
      if ¬ response.is_array then
        (Except.error ⟨error_kind.database_unavailable, none⟩, trace)
      else
        (Except.ok (response.get_array.map Json.get_string), trace)

/-- Per-row normalization of `list_user_names`: take the row's `id` string;
skip it when it begins with `'_'`; strip the leading `"org.couchdb.user:"`
when present; skip the name when it is empty at that point. -/
def userRowName (row : Json) : Option String :=
  let pfx := "org.couchdb.user:"
  let name := (row.member "id").get_string
  if strStartsWith name "_" then none
  else
    let name := if strStartsWith name pfx then strDropChars name pfx.length else name
    if name.toList.isEmpty then none else some name

/-- Embedding of `connection::list_user_names`: GET `/_users/_all_docs`;
unless the response is an object whose `rows` member is an array, raise
`bad_response`; otherwise return the normalized row names in row order. -/
def list_user_names (resp : Except couch_error Json) : OpResult (List String) :=
  let trace := [event.request "/_users/_all_docs" "GET" false]
  match resp with
  | Except.error e => (Except.error e, trace)
  | Except.ok response =>
      if ¬ response.is_object || ¬ (response.member "rows").is_array then
        (Except.error ⟨error_kind.bad_response, none⟩, trace)
      else
        (Except.ok ((response.member "rows").get_array.filterMap userRowName), trace)

/-! Theorems settling the claims. -/

/-- The PUT request of `create_db` is always present in its trace. -/
theorem create_db_trace_has_put (db : String) (resp : Except couch_error Json) :
    event.request ("/" ++ url_encode db) "PUT" false ∈ (create_db db resp).2 := by
  cases resp with
  | error e => simp [create_db]
  | ok j =>
      simp only [create_db]
      split
      · simp
      · split
        · simp
        · split <;> simp

/-- Claim C2: `ensure_db_is_deleted` attempts `remove_db` and returns
normally whenever `remove_db` succeeds or fails with kind
`content_not_found` or `database_not_deletable`; an error of any other kind
propagates to the caller unchanged. -/
theorem claim_C2_ensure_db_is_deleted_tolerance (db : String)
    (resp : Except couch_error Json) :
    ((remove_db db resp).1 = Except.ok () →
      (ensure_db_is_deleted db resp).1 = Except.ok ()) ∧
    (∀ e : couch_error, (remove_db db resp).1 = Except.error e →
      ((e.kind = error_kind.content_not_found ∨ e.kind = error_kind.database_not_deletable →
        (ensure_db_is_deleted db resp).1 = Except.ok ()) ∧
       (e.kind ≠ error_kind.content_not_found → e.kind ≠ error_kind.database_not_deletable →
        (ensure_db_is_deleted db resp).1 = Except.error e))) := by
  rcases h : remove_db db resp with ⟨r, tr⟩
  simp only [ensure_db_is_deleted, h]
  cases r with
  | ok u => simp
  | error e0 =>
      refine ⟨by simp, fun e he => ?_⟩
      obtain rfl : e0 = e := by
        simpa using he
      constructor
      · rintro (hk | hk) <;> simp [hk]
      · intro h1 h2
        simp [h1, h2]

/-- Witness for claim C2 at concrete inputs: a DELETE response without a
true `ok` member makes `remove_db` fail with `database_not_deletable`, and
`ensure_db_is_deleted` swallows it. -/
theorem claim_C2_witness :
    (ensure_db_is_deleted "db" (Except.ok (Json.obj []))).1 = Except.ok () :=
  ((claim_C2_ensure_db_is_deleted_tolerance "db"
      (Except.ok (Json.obj []))).2
    ⟨error_kind.database_not_deletable, none⟩ (by decide)).1 (Or.inr rfl)

/-- Claim C3: `ensure_db_exists` first attempts `get_db`; exactly on a
`content_not_found` failure does it fall through to `create_db` (whose PUT
request then appears in the trace); any other `get_db` error propagates
unchanged and `create_db` is not invoked. -/
theorem claim_C3_ensure_db_exists_fallthrough (db : String)
    (headResult : Except couch_error Unit) (createResp : Except couch_error Json) :
    (headResult = Except.ok () →
      (ensure_db_exists db headResult createResp).1 = Except.ok db ∧
      event.request ("/" ++ url_encode db) "PUT" false ∉
        (ensure_db_exists db headResult createResp).2) ∧
    (∀ e : couch_error, headResult = Except.error e →
      ((e.kind = error_kind.content_not_found →
        (ensure_db_exists db headResult createResp).1 = (create_db db createResp).1 ∧
        event.request ("/" ++ url_encode db) "PUT" false ∈
          (ensure_db_exists db headResult createResp).2) ∧
       (e.kind ≠ error_kind.content_not_found →
        (ensure_db_exists db headResult createResp).1 = Except.error e ∧
        event.request ("/" ++ url_encode db) "PUT" false ∉
          (ensure_db_exists db headResult createResp).2))) := by
  cases headResult with
  | ok u =>
      refine ⟨fun _ => ?_, fun e he => by simp at he⟩
      simp [ensure_db_exists, get_db]
  | error e0 =>
      refine ⟨fun hc => by simp at hc, fun e he => ?_⟩
      obtain rfl : e0 = e := by simpa using he
      constructor
      · intro hk
        simp [ensure_db_exists, get_db, hk, create_db_trace_has_put]
      · intro hk
        simp [ensure_db_exists, get_db, hk]

/-- Witness for claim C3 at concrete inputs: a `content_not_found` HEAD
failure falls through to a successful `create_db`. -/
theorem claim_C3_witness :
    (ensure_db_exists "db" (Except.error ⟨error_kind.content_not_found, none⟩)
        (Except.ok (Json.obj [("ok", Json.bool true)]))).1 =
      (create_db "db" (Except.ok (Json.obj [("ok", Json.bool true)]))).1 :=
  (((claim_C3_ensure_db_exists_fallthrough "db"
      (Except.error ⟨error_kind.content_not_found, none⟩)
      (Except.ok (Json.obj [("ok", Json.bool true)]))).2
    ⟨error_kind.content_not_found, none⟩ rfl).1 rfl).1

/-- Claim C4 counterexample: on a non-object PUT response (here a JSON
array), `create_db` fails with `database_unavailable`, not with the
`bad_response` kind the claim states. -/
theorem claim_C4_counterexample :
    (create_db "db" (Except.ok (Json.arr []))).1 =
      Except.error ⟨error_kind.database_unavailable, none⟩ ∧
    ¬ (create_db "db" (Except.ok (Json.arr []))).1 =
      Except.error ⟨error_kind.bad_response, none⟩ := by
  decide

/-- Claim C4 (amended): `create_db` fails with `database_unavailable` when
the response is not a JSON object; with `database_not_creatable` carrying
the response's `reason` string when the object has an `error` member; with
`database_not_creatable` and no reason when `ok` is not literally `true`;
otherwise it returns the database reference for that name. -/
theorem claim_C4_create_db_classification (db : String) (j : Json) :
    (j.is_object = false →
      (create_db db (Except.ok j)).1 =
        Except.error ⟨error_kind.database_unavailable, none⟩) ∧
    (j.is_object = true → j.is_member "error" = true →
      (create_db db (Except.ok j)).1 =
        Except.error ⟨error_kind.database_not_creatable,
                      some (j.member "reason").get_string⟩) ∧
    (j.is_object = true → j.is_member "error" = false →
      (j.member "ok").get_bool = false →
      (create_db db (Except.ok j)).1 =
        Except.error ⟨error_kind.database_not_creatable, none⟩) ∧
    (j.is_object = true → j.is_member "error" = false →
      (j.member "ok").get_bool = true →
      (create_db db (Except.ok j)).1 = Except.ok db ∧
      event.constructDbRef db ∈ (create_db db (Except.ok j)).2) := by
  refine ⟨fun h1 => ?_, fun h1 h2 => ?_, fun h1 h2 h3 => ?_, fun h1 h2 h3 => ?_⟩
  · simp [create_db, h1]
  · simp [create_db, h1, h2]
  · simp [create_db, h1, h2, h3]
  · simp [create_db, h1, h2, h3]

/-- Witness for claim C4 (amended) at the concrete inputs of the spec: an
`error`/`reason` response carries its reason; an `ok:true` response yields
the reference. -/
theorem claim_C4_witness :
    (create_db "db" (Except.ok (Json.obj [("error", Json.str "file_exists"),
        ("reason", Json.str "why")]))).1 =
      Except.error ⟨error_kind.database_not_creatable, some "why"⟩ ∧
    (create_db "db" (Except.ok (Json.obj [("ok", Json.bool true)]))).1 =
      Except.ok "db" :=
  ⟨(claim_C4_create_db_classification "db"
      (Json.obj [("error", Json.str "file_exists"), ("reason", Json.str "why")])).2.1
      (by decide) (by decide),
   ((claim_C4_create_db_classification "db"
      (Json.obj [("ok", Json.bool true)])).2.2.2
      (by decide) (by decide) (by decide)).1⟩

/-- Claim C5: the major version is the stream-parse of the version string
truncated at its first `'.'`; it is `-1` whenever that component has no
parseable leading integer, and parse failure never raises an error (the
call still returns normally). -/
theorem claim_C5_major_version_parse (s : conn_state) (v : String) :
    (∀ n : Int, parseStreamInt (eraseFromDot v) = some n →
      (get_major_version s (Except.ok (Json.obj [("version", Json.str v)]))).1 =
        Except.ok n) ∧
    (parseStreamInt (eraseFromDot v) = none →
      (get_major_version s (Except.ok (Json.obj [("version", Json.str v)]))).1 =
        Except.ok (-1)) := by
  constructor
  · intro n hn
    simp [get_major_version, get_couchdb_info, Json.is_object, Json.member,
          Json.get_string, hn]
  · intro hn
    simp [get_major_version, get_couchdb_info, Json.is_object, Json.member,
          Json.get_string, hn]

/-- Witness for claim C5 at the spec's concrete inputs: version `"vNext"`
gives major version -1 and `"2.3.1"` gives 2. -/
theorem claim_C5_witness :
    (get_major_version ⟨"", 0⟩
        (Except.ok (Json.obj [("version", Json.str "vNext")]))).1 = Except.ok (-1) ∧
    (get_major_version ⟨"", 0⟩
        (Except.ok (Json.obj [("version", Json.str "2.3.1")]))).1 = Except.ok 2 :=
  ⟨(claim_C5_major_version_parse ⟨"", 0⟩ "vNext").2 (by decide),
   (claim_C5_major_version_parse ⟨"", 0⟩ "2.3.1").1 2 (by decide)⟩

/-- Claim C6: on a JSON-array response `list_all_db_names` returns every
entry in order, `list_db_names` returns exactly the entries that neither
begin with `'_'` nor with the literal `"shards/"`, in order, and a
non-array response makes both fail with `database_unavailable`. -/
theorem claim_C6_db_name_listing (items : List Json) (j : Json) :
    ((list_all_db_names (Except.ok (Json.arr items))).1 =
      Except.ok (items.map Json.get_string)) ∧
    ((list_db_names (Except.ok (Json.arr items))).1 =
      Except.ok ((items.map Json.get_string).filter
        (fun s => ¬ strStartsWith s "_" && ¬ strStartsWith s "shards/"))) ∧
    (j.is_array = false →
      (list_db_names (Except.ok j)).1 =
        Except.error ⟨error_kind.database_unavailable, none⟩ ∧
      (list_all_db_names (Except.ok j)).1 =
        Except.error ⟨error_kind.database_unavailable, none⟩) := by
  refine ⟨by simp [list_all_db_names, Json.is_array, Json.get_array], ?_, ?_⟩
  · rfl
  · intro h
    constructor <;> simp [list_db_names, list_all_db_names, h]

/-- Witness for claim C6 at the spec's concrete inputs: the filtered
result for `["_replicator", "shards/x", "alpha", "beta"]` is exactly
`["alpha", "beta"]`, and a null response fails with
`database_unavailable`. -/
theorem claim_C6_witness :
    (list_db_names (Except.ok (Json.arr [Json.str "_replicator",
        Json.str "shards/x", Json.str "alpha", Json.str "beta"]))).1 =
      Except.ok ["alpha", "beta"] ∧
    (list_db_names (Except.ok Json.null)).1 =
      Except.error ⟨error_kind.database_unavailable, none⟩ := by
  constructor
  · exact ((claim_C6_db_name_listing [Json.str "_replicator", Json.str "shards/x",
        Json.str "alpha", Json.str "beta"] Json.null).2.1).trans (by decide)
  · exact ((claim_C6_db_name_listing [] Json.null).2.2 (by decide)).1

/-- Claim C7: `list_user_names` fails with `bad_response` unless the
response is an object whose `rows` member is an array; otherwise it
returns the per-row normalized names in row order, where normalization
skips ids beginning with `'_'`, strips a leading `"org.couchdb.user:"`,
and omits names empty at that point; in particular
`"org.couchdb.user:alice"` normalizes to `"alice"` and `"_design/x"` is
excluded. -/
theorem claim_C7_list_user_names (j : Json) :
    (¬ (j.is_object = true ∧ (j.member "rows").is_array = true) →
      (list_user_names (Except.ok j)).1 =
        Except.error ⟨error_kind.bad_response, none⟩) ∧
    (∀ rows : List Json, j.member "rows" = Json.arr rows → j.is_object = true →
      (list_user_names (Except.ok j)).1 =
        Except.ok (rows.filterMap userRowName)) ∧
    (userRowName (Json.obj [("id", Json.str "org.couchdb.user:alice")]) =
      some "alice") ∧
    (userRowName (Json.obj [("id", Json.str "_design/x")]) = none) := by
  refine ⟨fun h => ?_, fun rows hrows hobj => ?_, by decide, by decide⟩
  · cases hobj : j.is_object with
    | false => simp [list_user_names, hobj]
    | true =>
        cases harr : (j.member "rows").is_array with
        | false => simp [list_user_names, hobj, harr]
        | true => exact absurd ⟨hobj, harr⟩ h
  · simp [list_user_names, hobj, hrows, Json.is_array, Json.get_array]

/-- Witness for claim C7 at concrete inputs: a null response fails with
`bad_response`; the two-row listing normalizes to exactly `["alice"]`. -/
theorem claim_C7_witness :
    (list_user_names (Except.ok Json.null)).1 =
      Except.error ⟨error_kind.bad_response, none⟩ ∧
    (list_user_names (Except.ok (Json.obj [("rows", Json.arr
        [Json.obj [("id", Json.str "org.couchdb.user:alice")],
         Json.obj [("id", Json.str "_design/x")]])]))).1 =
      Except.ok ["alice"] := by
  constructor
  · exact (claim_C7_list_user_names Json.null).1 (by decide)
  · exact (((claim_C7_list_user_names (Json.obj [("rows", Json.arr
        [Json.obj [("id", Json.str "org.couchdb.user:alice")],
         Json.obj [("id", Json.str "_design/x")]])])).2.1
        [Json.obj [("id", Json.str "org.couchdb.user:alice")],
         Json.obj [("id", Json.str "_design/x")]] rfl rfl)).trans (by decide)

/-- Claim C10 counterexample: on the root response `{"version": "-1"}` the
fetch succeeds and `get_major_version` returns -1 even though the version
string's pre-`'.'` component does have a parseable leading integer (it
parses to -1), so -1 is not produced only for unparseable version
strings. -/
theorem claim_C10_counterexample :
    (get_major_version ⟨"", 7⟩
        (Except.ok (Json.obj [("version", Json.str "-1")]))).1 = Except.ok (-1) ∧
    parseStreamInt (eraseFromDot "-1") = some (-1) := by
  decide

/-- Claim C10 (amended): every `get_couchdb_version`/`get_major_version`
call issues exactly one fresh root GET, its outcome is independent of the
previously cached state, a non-object root response makes both fail with
`bad_response`, and a -1 result arises only from a successful fetch, namely
when the version string's pre-`'.'` component has no parseable leading
integer or itself parses to -1. -/
theorem claim_C10_fresh_root_fetch (s s2 : conn_state)
    (resp : Except couch_error Json) :
    ((get_major_version s resp).2.2 = [event.request "" "GET" true] ∧
     (get_couchdb_version s resp).2.2 = [event.request "" "GET" true]) ∧
    ((get_major_version s resp).1 = (get_major_version s2 resp).1 ∧
     (get_couchdb_version s resp).1 = (get_couchdb_version s2 resp).1) ∧
    (∀ j : Json, resp = Except.ok j → j.is_object = false →
      (get_major_version s resp).1 = Except.error ⟨error_kind.bad_response, none⟩ ∧
      (get_couchdb_version s resp).1 = Except.error ⟨error_kind.bad_response, none⟩) ∧
    ((get_major_version s resp).1 = Except.ok (-1) →
      ∃ j : Json, resp = Except.ok j ∧ j.is_object = true ∧
        (parseStreamInt (eraseFromDot ((j.member "version").get_string)) = none ∨
         parseStreamInt (eraseFromDot ((j.member "version").get_string)) =
           some (-1))) := by
  cases resp with
  | error e =>
      refine ⟨⟨?_, ?_⟩, ⟨?_, ?_⟩, fun j hj => by simp at hj, fun h => ?_⟩ <;>
        simp [get_major_version, get_couchdb_version, get_couchdb_info] at *
  | ok j =>
      cases hobj : j.is_object with
      | false =>
          refine ⟨⟨?_, ?_⟩, ⟨?_, ?_⟩, fun j2 hj2 _ => ?_, fun h => ?_⟩
          · simp [get_major_version, get_couchdb_info, hobj]
          · simp [get_couchdb_version, get_couchdb_info, hobj]
          · simp [get_major_version, get_couchdb_info, hobj]
          · simp [get_couchdb_version, get_couchdb_info, hobj]
          · obtain rfl : j = j2 := by simpa using hj2
            constructor
            · simp [get_major_version, get_couchdb_info, hobj]
            · simp [get_couchdb_version, get_couchdb_info, hobj]
          · simp [get_major_version, get_couchdb_info, hobj] at h
      | true =>
          refine ⟨⟨?_, ?_⟩, ⟨?_, ?_⟩, fun j2 hj2 hobj2 => ?_, fun h => ?_⟩
          · simp [get_major_version, get_couchdb_info, hobj]
          · simp [get_couchdb_version, get_couchdb_info, hobj]
          · simp [get_major_version, get_couchdb_info, hobj]
          · simp [get_couchdb_version, get_couchdb_info, hobj]
          · obtain rfl : j = j2 := by simpa using hj2
            exact absurd hobj (by simp [hobj2])
          · refine ⟨j, rfl, hobj, ?_⟩
            rcases hp : parseStreamInt
                (eraseFromDot ((j.member "version").get_string)) with _ | n
            · exact Or.inl rfl
            · simp [get_major_version, get_couchdb_info, hobj, hp] at h
              simp [hp, h]

/-- Witness for claim C10 (amended) at a concrete input: a JSON-array root
response makes both version accessors fail with `bad_response`. -/
theorem claim_C10_witness :
    (get_major_version ⟨"", 0⟩ (Except.ok (Json.arr []))).1 =
      Except.error ⟨error_kind.bad_response, none⟩ ∧
    (get_couchdb_version ⟨"", 0⟩ (Except.ok (Json.arr []))).1 =
      Except.error ⟨error_kind.bad_response, none⟩ :=
  (claim_C10_fresh_root_fetch ⟨"", 0⟩ ⟨"x", 3⟩
      (Except.ok (Json.arr []))).2.2.1 (Json.arr []) rfl (by decide)

/-- Claim C1 counterexample: with starting mode `auth_cookie` and a failing
session POST, `login` propagates the failure with the auth mode left at the
intermediate `auth_basic` setting instead of restoring the entry value, so
the mode is not restored on every path. -/
theorem claim_C1_counterexample :
    (login auth_type.auth_cookie
        ⟨Except.error ⟨error_kind.transport_error, none⟩, Except.ok Json.null⟩).2.1 =
      auth_type.auth_basic ∧
    ¬ (login auth_type.auth_cookie
        ⟨Except.error ⟨error_kind.transport_error, none⟩, Except.ok Json.null⟩).2.1 =
      auth_type.auth_cookie := by
  decide

/-- Claim C1 (amended): for a starting mode in {basic, cookie}, whenever
the session POST succeeds `login` ends with the mode restored to its entry
value — both on full success and when the internal cleanup logout fails,
in which case the mode is restored before the error is re-raised — and the
cleanup DELETE is issued exactly when the original mode was basic; when the
session POST itself fails, the error propagates with the mode left at the
intermediate `auth_basic` setting. -/
theorem claim_C1_login_mode_restoration (t : auth_type) (env : login_env) :
    (t = auth_type.auth_basic ∨ t = auth_type.auth_cookie) →
    ((∀ j : Json, env.postResp = Except.ok j → (login t env).2.1 = t) ∧
     (∀ (j : Json) (e : couch_error), env.postResp = Except.ok j →
        t = auth_type.auth_basic → env.logoutResp = Except.error e →
        (login t env).1 = Except.error e ∧ (login t env).2.1 = t) ∧
     (∀ j : Json, env.postResp = Except.ok j →
        (event.request "/_session" "DELETE" false ∈ (login t env).2.2 ↔
          t = auth_type.auth_basic)) ∧
     (∀ e : couch_error, env.postResp = Except.error e →
        (login t env).1 = Except.error e ∧
        (login t env).2.1 = auth_type.auth_basic)) := by
  rcases env with ⟨post, lout⟩
  rintro (rfl | rfl)
  · refine ⟨fun j hp => ?_, fun j e hp _ hl => ?_, fun j hp => ?_, fun e hp => ?_⟩
    · subst hp
      cases lout with
      | error e2 => simp [login, logout, Except.map]
      | ok j2 => simp [login, logout, Except.map]
    · subst hp; subst hl
      simp [login, logout, Except.map]
    · subst hp
      cases lout with
      | error e2 => simp [login, logout, Except.map]
      | ok j2 => simp [login, logout, Except.map]
    · subst hp
      simp [login]
  · refine ⟨fun j hp => ?_, fun j e hp ht hl => ?_, fun j hp => ?_, fun e hp => ?_⟩
    · subst hp
      simp [login]
    · exact absurd ht (by simp)
    · subst hp
      simp [login]
    · subst hp
      simp [login]

/-- Witness for claim C1 (amended) at concrete inputs: under basic mode
with a failing cleanup logout, the error propagates and the final mode is
basic; under cookie mode with a failing POST, the final mode is basic. -/
theorem claim_C1_witness :
    (login auth_type.auth_basic
        ⟨Except.ok Json.null, Except.error ⟨error_kind.forbidden, none⟩⟩).1 =
      Except.error ⟨error_kind.forbidden, none⟩ ∧
    (login auth_type.auth_basic
        ⟨Except.ok Json.null, Except.error ⟨error_kind.forbidden, none⟩⟩).2.1 =
      auth_type.auth_basic :=
  ((claim_C1_login_mode_restoration auth_type.auth_basic
      ⟨Except.ok Json.null, Except.error ⟨error_kind.forbidden, none⟩⟩
      (Or.inl rfl)).2.1 Json.null ⟨error_kind.forbidden, none⟩ rfl rfl rfl)

/-- Claim C8: clustering is supported iff the fetched major version is at
least 2; `upgrade_to_cluster_connection` returns a populated handle exactly
when clustering is supported and a null handle otherwise; and
`upgrade_to_node_connection` returns a synthetic node connection with an
empty node name when clustering is unsupported, and otherwise the first
node of the cluster connection in its defined ordering. -/
theorem claim_C8_cluster_upgrade_dispatch (clusterNodes : List node_connection)
    (port : Nat) (s : conn_state) (resp : Except couch_error Json) :
    (∀ m : Int, (get_major_version s resp).1 = Except.ok m →
      ((get_supports_clusters s resp).1 = Except.ok true ↔ 2 ≤ m)) ∧
    ((get_supports_clusters s resp).1 = Except.ok true →
      (upgrade_to_cluster_connection clusterNodes port s resp).1 =
        Except.ok (some ⟨port, clusterNodes⟩) ∧
      (upgrade_to_node_connection clusterNodes port s resp).1 =
        Except.ok clusterNodes.head?) ∧
    ((get_supports_clusters s resp).1 = Except.ok false →
      (upgrade_to_cluster_connection clusterNodes port s resp).1 =
        Except.ok none ∧
      (upgrade_to_node_connection clusterNodes port s resp).1 =
        Except.ok (some ⟨port, ""⟩)) := by
  rcases h : get_major_version s resp with ⟨r, s3, tr⟩
  cases r with
  | error e =>
      have hsc : get_supports_clusters s resp = (Except.error e, s3, tr) := by
        simp [get_supports_clusters, h]
      refine ⟨fun m hm => ?_, fun hs => ?_, fun hs => ?_⟩
      · simp at hm
      · rw [hsc] at hs
        simp at hs
      · rw [hsc] at hs
        simp at hs
  | ok m =>
      have hsc : get_supports_clusters s resp =
          (Except.ok (decide (2 ≤ m)), s3, tr) := by
        simp [get_supports_clusters, h]
      refine ⟨fun m2 hm2 => ?_, fun hs => ?_, fun hs => ?_⟩
      · obtain rfl : m = m2 := by simpa using hm2
        rw [hsc]
        simp
      · rw [hsc] at hs
        have hd : decide (2 ≤ m) = true := by simpa using hs
        constructor <;>
          simp [upgrade_to_cluster_connection, upgrade_to_node_connection, hsc, hd]
      · rw [hsc] at hs
        have hd : decide (2 ≤ m) = false := by simpa using hs
        constructor <;>
          simp [upgrade_to_cluster_connection, upgrade_to_node_connection, hsc, hd]

/-- Witness for claim C8 at concrete inputs: version `"2.3.1"` supports
clustering and upgrades to a populated cluster handle and to its first
node; version `"1.6.1"` does not, yielding a null cluster handle and a
synthetic node connection with an empty node name. -/
theorem claim_C8_witness :
    (upgrade_to_cluster_connection [⟨5986, "node1"⟩] 5986 ⟨"", 0⟩
        (Except.ok (Json.obj [("version", Json.str "2.3.1")]))).1 =
      Except.ok (some ⟨5986, [⟨5986, "node1"⟩]⟩) ∧
    (upgrade_to_node_connection [⟨5986, "node1"⟩] 5986 ⟨"", 0⟩
        (Except.ok (Json.obj [("version", Json.str "2.3.1")]))).1 =
      Except.ok (some ⟨5986, "node1"⟩) ∧
    (upgrade_to_cluster_connection [] 5986 ⟨"", 0⟩
        (Except.ok (Json.obj [("version", Json.str "1.6.1")]))).1 =
      Except.ok none ∧
    (upgrade_to_node_connection [] 5986 ⟨"", 0⟩
        (Except.ok (Json.obj [("version", Json.str "1.6.1")]))).1 =
      Except.ok (some ⟨5986, ""⟩) :=
  ⟨((claim_C8_cluster_upgrade_dispatch [⟨5986, "node1"⟩] 5986 ⟨"", 0⟩
      (Except.ok (Json.obj [("version", Json.str "2.3.1")]))).2.1 (by decide)).1,
   ((claim_C8_cluster_upgrade_dispatch [⟨5986, "node1"⟩] 5986 ⟨"", 0⟩
      (Except.ok (Json.obj [("version", Json.str "2.3.1")]))).2.1 (by decide)).2,
   ((claim_C8_cluster_upgrade_dispatch [] 5986 ⟨"", 0⟩
      (Except.ok (Json.obj [("version", Json.str "1.6.1")]))).2.2 (by decide)).1,
   ((claim_C8_cluster_upgrade_dispatch [] 5986 ⟨"", 0⟩
      (Except.ok (Json.obj [("version", Json.str "1.6.1")]))).2.2 (by decide)).2⟩

/-- The trace of a failed `create_db` is exactly its PUT request: no
database reference is constructed on any failure path. -/
theorem create_db_error_trace (db : String) (resp : Except couch_error Json)
    (e : couch_error) :
    (create_db db resp).1 = Except.error e →
    (create_db db resp).2 = [event.request ("/" ++ url_encode db) "PUT" false] := by
  cases resp with
  | error e2 => intro _; rfl
  | ok jj =>
      simp only [create_db]
      split
      · intro _; rfl
      · split
        · intro _; rfl
        · split
          · intro _; rfl
          · intro hc
            simp at hc

/-- Claim C9 counterexample: at a concrete input, the first event of
`db_exists` is the construction of the database reference, preceding the
HEAD existence check it then issues, so a reference is constructed before
existence has been established. -/
theorem claim_C9_counterexample :
    (db_exists "x" (Except.ok ())).2 =
      [event.constructDbRef "x", event.rawRequest "/x" "HEAD"] := by
  decide

/-- Claim C9 (amended): `get_db` and `create_db` construct a database
reference only after their confirming request has succeeded — no reference
is constructed on any failure path, and on success the construction follows
the request in the trace — whereas `db_exists` constructs a transient
database reference first and only then performs its existence check. -/
theorem claim_C9_db_ref_construction (db n : String)
    (headResult : Except couch_error Unit) (resp : Except couch_error Json)
    (e : couch_error) :
    ((get_db db headResult).1 = Except.error e →
      event.constructDbRef n ∉ (get_db db headResult).2) ∧
    ((create_db db resp).1 = Except.error e →
      event.constructDbRef n ∉ (create_db db resp).2) ∧
    ((get_db db headResult).1 = Except.ok db →
      (get_db db headResult).2 =
        [event.rawRequest ("/" ++ url_encode db) "HEAD",
         event.constructDbRef db]) ∧
    ((db_exists db headResult).2).head? = some (event.constructDbRef db) := by
  refine ⟨?_, fun hc => ?_, ?_, ?_⟩
  · cases headResult with
    | error e2 => intro _; simp [get_db]
    | ok u => intro hc; simp [get_db] at hc
  · rw [create_db_error_trace db resp e hc]
    simp
  · cases headResult with
    | error e2 => intro hc; simp [get_db] at hc
    | ok u => intro _; rfl
  · cases headResult with
    | ok u => rfl
    | error e2 =>
        by_cases hk : e2.kind = error_kind.content_not_found <;>
          simp [db_exists, hk]

/-- Witness for claim C9 (amended) at a concrete input: a failed HEAD
leaves the `get_db` trace without any reference construction. -/
theorem claim_C9_witness :
    event.constructDbRef "x" ∉
      (get_db "x" (Except.error ⟨error_kind.content_not_found, none⟩)).2 :=
  (claim_C9_db_ref_construction "x" "x"
      (Except.error ⟨error_kind.content_not_found, none⟩)
      (Except.ok Json.null) ⟨error_kind.content_not_found, none⟩).1 rfl

end Couch
